import Mathlib

/-!
Verification of the dependency-manifest module `synapse/python_dependencies.py`.

The module declares a required-dependency list `REQUIREMENTS`, a mapping
`CONDITIONAL_REQUIREMENTS` from optional-group names to specifier lists,
computes `ALL_OPTIONAL_REQUIREMENTS` as the union of every non-excluded
group (only `"systemd"` is excluded), validates at import time that no
specifier contains a double-quote character, and exposes
`list_requirements()` returning `list(set(REQUIREMENTS) | ALL_OPTIONAL_REQUIREMENTS)`.

Embedding choices:
- A requirement specifier is an opaque `String`.
- The Python `dict` is an association list in declaration order (Python
  dicts preserve insertion order); its keys are distinct.
- A Python `set` is a `Finset String`; `set(l)` is `l.toFinset` and `|` is
  `∪`.  Python set iteration order is unspecified, so `list(s)` is
  materialized in a canonical order (`Finset.sort`): every claim about the
  resulting list is order-insensitive.
- The import-time validation loop raising `Exception` is modelled as a
  function returning the first offending specifier, and module loading as
  an `Except` value.
-/

namespace PythonDependencies

/-- A requirement specifier: an opaque string, never parsed. -/
abbrev Specifier := String

/-- A manifest: the required set, the named optional groups (an association
list mirroring the Python dict in declaration order), and the names of the
excluded groups (in the source, the literal list `["systemd"]` tested by
`if name not in ["systemd"]`). -/
structure Manifest where
  requiredSet : List Specifier
  optionalGroups : List (String × List Specifier)
  excludedGroupNames : List String
deriving DecidableEq

/-- `'"' in dep`: the specifier contains a double-quote character
(`Char.ofNat 34` is the double-quote). -/
def hasQuote (s : Specifier) : Bool := s.data.contains (Char.ofNat 34)

/-- The `REQUIREMENTS` list of the source, transcribed verbatim
(apostrophes written `\x27`). -/
def REQUIREMENTS : List Specifier := [
  "jsonschema>=3.0.0",
  "frozendict>=1,!=2.1.2",
  "unpaddedbase64>=1.1.0",
  "canonicaljson>=1.4.0",
  "signedjson>=1.1.0,<=1.1.1",
  "pynacl>=1.2.1",
  "idna>=2.5",
  "service_identity>=18.1.0",
  "Twisted>=18.9.0",
  "treq>=15.1",
  "pyopenssl>=16.0.0",
  "pyyaml>=3.11",
  "pyasn1>=0.1.9",
  "pyasn1-modules>=0.0.7",
  "bcrypt>=3.1.0",
  "pillow>=5.4.0",
  "sortedcontainers>=1.4.4",
  "pymacaroons>=0.13.0",
  "msgpack>=0.5.2",
  "phonenumbers>=8.2.0",
  "prometheus_client>=0.4.0",
  "attrs>=19.2.0,!=21.1.0",
  "netaddr>=0.7.18",
  "Jinja2>=3.0",
  "bleach>=1.4.3",
  "typing-extensions>=3.10.0",
  "cryptography>=3.4.7",
  "ijson>=3.1.4",
  "matrix-common~=1.1.0",
  "packaging>=16.1",
  "orjson>=3.6.7"]

/-- The `CONDITIONAL_REQUIREMENTS` dict of the source, transcribed verbatim
in declaration order. -/
def CONDITIONAL_REQUIREMENTS : List (String × List Specifier) := [
  ("matrix-synapse-ldap3", ["matrix-synapse-ldap3>=0.1"]),
  ("postgres", [
    "psycopg2>=2.8 ; platform_python_implementation != \x27PyPy\x27",
    "psycopg2cffi>=2.8 ; platform_python_implementation == \x27PyPy\x27",
    "psycopg2cffi-compat==1.1 ; platform_python_implementation == \x27PyPy\x27"]),
  ("saml2", ["pysaml2>=4.5.0"]),
  ("oidc", ["authlib>=0.14.0"]),
  ("systemd", ["systemd-python>=231"]),
  ("url_preview", ["lxml>=4.2.0"]),
  ("sentry", ["sentry-sdk>=0.7.2"]),
  ("opentracing", ["jaeger-client>=4.0.0", "opentracing>=2.2.0"]),
  ("jwt", ["pyjwt>=1.6.4"]),
  ("redis", ["txredisapi>=1.4.7", "hiredis"]),
  ("cache_memory", ["pympler"])]

/-- The manifest the source module declares: `REQUIREMENTS`,
`CONDITIONAL_REQUIREMENTS`, and `"systemd"` as the only excluded group. -/
def sourceManifest : Manifest :=
  ⟨REQUIREMENTS, CONDITIONAL_REQUIREMENTS, ["systemd"]⟩

/-- The loop building `ALL_OPTIONAL_REQUIREMENTS`: starting from the empty
set, for each `(name, optional_deps)` entry in order, if `name` is not
excluded then `ALL_OPTIONAL_REQUIREMENTS = set(optional_deps) | ALL_OPTIONAL_REQUIREMENTS`. -/
def allOptionalFold (excluded : List String)
    (groups : List (String × List Specifier)) : Finset Specifier :=
  groups.foldl
    (fun acc g => if g.1 ∉ excluded then g.2.toFinset ∪ acc else acc) ∅

/-- `computeAllOptional`: the union of every non-excluded group of the
manifest, as computed by the source's fold. -/
def computeAllOptional (m : Manifest) : Finset Specifier :=
  allOptionalFold m.excludedGroupNames m.optionalGroups

/-- The module-level constant `ALL_OPTIONAL_REQUIREMENTS` of the source. -/
def ALL_OPTIONAL_REQUIREMENTS : Finset Specifier :=
  computeAllOptional sourceManifest

/-- The scan order of the validation loop:
`itertools.chain(REQUIREMENTS, *CONDITIONAL_REQUIREMENTS.values())` —
the required set first, then every group's list in declaration order,
excluded groups included. -/
def validationScan (m : Manifest) : List Specifier :=
  m.requiredSet ++ (m.optionalGroups.map Prod.snd).flatten

/-- The first specifier, in scan order, containing a double-quote
(`None` when the validation loop passes). -/
def validationError (m : Manifest) : Option Specifier :=
  (validationScan m).find? hasQuote

/-- The error raised by the validation loop (`ManifestError` in the spec),
carrying the offending specifier. -/
structure ManifestError where
  dep : Specifier
deriving DecidableEq

/-- The message of the exception raised by the source:
`"Dependency `%s` contains double-quote; use single-quotes instead" % (dep,)`. -/
def manifestErrorMsg (d : Specifier) : String :=
  "Dependency `" ++ d ++ "` contains double-quote; use single-quotes instead"

/-- `validate`: the import-time validation loop, raising `ManifestError`
on the first specifier containing a double-quote. -/
def validate (m : Manifest) : Except ManifestError Unit :=
  match validationError m with
  | some d => .error ⟨d⟩
  | none => .ok ()

/-- Loading the module: validation runs at import time, so the manifest
(and with it every listing operation) becomes available only when the
validation loop raises nothing. -/
def loadManifest (m : Manifest) : Except ManifestError Manifest :=
  (validate m).map (fun _ => m)

/-- `list_requirements()`: `list(set(REQUIREMENTS) | ALL_OPTIONAL_REQUIREMENTS)`.
The set union is deduplicated by construction; the resulting list is
materialized in a canonical order (Python set iteration order is
unspecified). -/
def list_requirements (m : Manifest) : List Specifier :=
  (m.requiredSet.toFinset ∪ computeAllOptional m).sort (· ≤ ·)

/-- Modelled from the spec: the `listGroup(name)` operation.  The source
exposes the dict `CONDITIONAL_REQUIREMENTS` directly and group lookup is
Python dict indexing, which returns the stored list verbatim or raises
`KeyError` (`UnknownGroupError` in the spec) for a missing key; `none`
models the error. -/
def listGroup (m : Manifest) (name : String) : Option (List Specifier) :=
  (m.optionalGroups.find? (fun g => g.1 == name)).map Prod.snd

/-- `listGroup` with explicit state passing: the registry state after the
call is returned alongside the result, to express that a lookup (also a
failing one) leaves the registry unchanged. -/
def listGroupCall (m : Manifest) (name : String) :
    Option (List Specifier) × Manifest :=
  (listGroup m name, m)

/-- `list_requirements` with explicit state passing: the registry state
after the call is returned alongside the result. -/
def listInstallableCall (m : Manifest) : List Specifier × Manifest :=
  (list_requirements m, m)

/-- `sys.stdout.writelines`: appends each line to the output stream in
order, with no separators of its own. -/
def writelines (out : String) (lines : List String) : String :=
  lines.foldl (fun acc l => acc ++ l) out

/-- Modelled from the spec: the process-level behavior of running the
module standalone (`__main__` block).  The source itself only contains
`sys.stdout.writelines(req + "\n" for req in list_requirements())`; the
exit code and the standard-error channel are interpreter behavior: an
uncaught exception from the import-time validation loop aborts with a
non-zero exit code and the error message on standard error before the
`__main__` block runs.  Result: `(exit code, stdout, stderr)`. -/
def mainRun (m : Manifest) : Nat × String × String :=
  match validationError m with
  | some d => (1, "", manifestErrorMsg d)
  | none => (0, writelines "" ((list_requirements m).map (fun r => r ++ "\n")), "")

/-! ### Helper lemmas -/

/-- Membership in the fold building the all-optional union: an element is in
the result iff it is in the initial accumulator or in some non-excluded
group of the list. -/
theorem mem_foldl_optional (excluded : List String)
    (groups : List (String × List Specifier)) (init : Finset Specifier)
    (x : Specifier) :
    (x ∈ groups.foldl
        (fun acc g => if g.1 ∉ excluded then g.2.toFinset ∪ acc else acc) init) ↔
      x ∈ init ∨ ∃ g ∈ groups, g.1 ∉ excluded ∧ x ∈ g.2 := by
  induction groups generalizing init with
  | nil => simp
  | cons g gs ih =>
    simp only [List.foldl_cons, ih, List.mem_cons]
    by_cases hg : g.1 ∉ excluded
    · simp only [if_pos hg, Finset.mem_union, List.mem_toFinset]
      constructor
      · rintro ((h | h) | ⟨a, ha, h1, h2⟩)
        · exact Or.inr ⟨g, Or.inl rfl, hg, h⟩
        · exact Or.inl h
        · exact Or.inr ⟨a, Or.inr ha, h1, h2⟩
      · rintro (h | ⟨a, (rfl | ha), h1, h2⟩)
        · exact Or.inl (Or.inr h)
        · exact Or.inl (Or.inl h2)
        · exact Or.inr ⟨a, ha, h1, h2⟩
    · simp only [if_neg hg]
      constructor
      · rintro (h | ⟨a, ha, h1, h2⟩)
        · exact Or.inl h
        · exact Or.inr ⟨a, Or.inr ha, h1, h2⟩
      · rintro (h | ⟨a, (rfl | ha), h1, h2⟩)
        · exact Or.inl h
        · exact absurd h1 (by simpa using hg)
        · exact Or.inr ⟨a, ha, h1, h2⟩

/-- Membership in `computeAllOptional`: exactly the specifiers of some
non-excluded group. -/
theorem mem_computeAllOptional (m : Manifest) (x : Specifier) :
    x ∈ computeAllOptional m ↔
      ∃ g ∈ m.optionalGroups, g.1 ∉ m.excludedGroupNames ∧ x ∈ g.2 := by
  rw [computeAllOptional, allOptionalFold, mem_foldl_optional]
  simp

/-- Membership in `list_requirements`: the required set together with every
non-excluded optional group. -/
theorem mem_list_requirements (m : Manifest) (x : Specifier) :
    x ∈ list_requirements m ↔
      x ∈ m.requiredSet ∨
        ∃ g ∈ m.optionalGroups, g.1 ∉ m.excludedGroupNames ∧ x ∈ g.2 := by
  rw [list_requirements, Finset.mem_sort, Finset.mem_union, List.mem_toFinset,
    mem_computeAllOptional]

/-- `List.find?` returns the first element satisfying the predicate: its
index precedes every other satisfying index. -/
theorem find?_eq_first {α : Type} (p : α → Bool) (l : List α) (a : α)
    (h : l.find? p = some a) :
    ∃ i, ∃ hi : i < l.length, l.get ⟨i, hi⟩ = a ∧ p a = true ∧
      ∀ j, ∀ hj : j < l.length, j < i → p (l.get ⟨j, hj⟩) = false := by
  induction l with
  | nil => simp at h
  | cons x xs ih =>
    by_cases hx : p x = true
    · rw [List.find?_cons_of_pos _ hx] at h
      obtain rfl : x = a := Option.some.inj h
      exact ⟨0, Nat.succ_pos _, rfl, hx,
        fun j hj hji => absurd hji (Nat.not_lt_zero j)⟩
    · rw [List.find?_cons_of_neg _ hx] at h
      obtain ⟨i, hi, hget, hpa, hfirst⟩ := ih h
      refine ⟨i + 1, Nat.succ_lt_succ hi, hget, hpa, ?_⟩
      intro j hj hji
      cases j with
      | zero => simpa using hx
      | succ k =>
        exact hfirst k (Nat.lt_of_succ_lt_succ hj) (Nat.lt_of_succ_lt_succ hji)

/-- A specifier of the scan list with a double-quote makes `validationError`
return some offender. -/
theorem validationError_isSome (m : Manifest)
    (hbad : ∃ d ∈ validationScan m, hasQuote d = true) :
    ∃ d, validationError m = some d := by
  rw [validationError]
  exact Option.isSome_iff_exists.mp (List.find?_isSome.mpr hbad)

/-! ### Claim theorems -/

/-- C1: for every valid manifest (no specifier contains a double-quote),
every specifier of the required set and every specifier of every optional
group whose name is not excluded appears in `list_requirements()`. -/
theorem c1_completeness (m : Manifest) (_hvalid : validationError m = none)
    (d : Specifier)
    (hd : d ∈ m.requiredSet ∨
      ∃ g ∈ m.optionalGroups, g.1 ∉ m.excludedGroupNames ∧ d ∈ g.2) :
    d ∈ list_requirements m :=
  (mem_list_requirements m d).mpr hd

/-- C1 witness: the required specifier `jsonschema>=3.0.0` and the
non-excluded optional specifier `lxml>=4.2.0` both appear in
`list_requirements()` of the source manifest, which is valid. -/
theorem c1_completeness_witness :
    "jsonschema>=3.0.0" ∈ list_requirements sourceManifest ∧
      "lxml>=4.2.0" ∈ list_requirements sourceManifest :=
  ⟨c1_completeness sourceManifest (by decide) _ (Or.inl (by decide)),
   c1_completeness sourceManifest (by decide) _
     (Or.inr ⟨("url_preview", ["lxml>=4.2.0"]), by decide, by decide, by decide⟩)⟩

/-- C2: for every valid manifest, `list_requirements()` contains each
distinct specifier exactly once: the returned list has no duplicates. -/
theorem c2_uniqueness (m : Manifest) (_hvalid : validationError m = none) :
    (list_requirements m).Nodup :=
  Finset.sort_nodup _ _

/-- C2 witness: the source manifest is valid and its
`list_requirements()` list has no duplicates. -/
theorem c2_uniqueness_witness : (list_requirements sourceManifest).Nodup :=
  c2_uniqueness sourceManifest (by decide)

/-- C3: a specifier appearing only in excluded groups is not in
`computeAllOptional()` (`ALL_OPTIONAL_REQUIREMENTS`), yet `listGroup` on
such a group's name still returns a list containing it. -/
theorem c3_exclusion (m : Manifest) (d : Specifier) (gname : String)
    (deps : List Specifier)
    (hlookup : listGroup m gname = some deps) (hmem : d ∈ deps)
    (honly : ∀ g ∈ m.optionalGroups, d ∈ g.2 → g.1 ∈ m.excludedGroupNames) :
    d ∉ computeAllOptional m ∧ ∃ l, listGroup m gname = some l ∧ d ∈ l := by
  refine ⟨fun hc => ?_, deps, hlookup, hmem⟩
  obtain ⟨g, hg, hne, hd⟩ := (mem_computeAllOptional m d).mp hc
  exact hne (honly g hg hd)

/-- C3 witness: `systemd-python>=231` appears only in the excluded
`systemd` group of the source manifest, is absent from
`ALL_OPTIONAL_REQUIREMENTS`, and is returned by `listGroup "systemd"`. -/
theorem c3_exclusion_witness :
    "systemd-python>=231" ∉ ALL_OPTIONAL_REQUIREMENTS ∧
      ∃ l, listGroup sourceManifest "systemd" = some l ∧
        "systemd-python>=231" ∈ l :=
  c3_exclusion sourceManifest "systemd-python>=231" "systemd"
    ["systemd-python>=231"] (by decide) (by decide) (by decide)

/-- C4: when some specifier contains a double-quote, validation raises
`ManifestError` naming exactly the first offending specifier in scan
order (the required set first, then the optional groups — excluded ones
included — in declaration order). -/
theorem c4_first_offender (m : Manifest)
    (hbad : ∃ d ∈ validationScan m, hasQuote d = true) :
    ∃ i, ∃ hi : i < (validationScan m).length,
      validate m = .error ⟨(validationScan m).get ⟨i, hi⟩⟩ ∧
        hasQuote ((validationScan m).get ⟨i, hi⟩) = true ∧
        ∀ j, ∀ hj : j < (validationScan m).length, j < i →
          hasQuote ((validationScan m).get ⟨j, hj⟩) = false := by
  obtain ⟨d, hd⟩ := validationError_isSome m hbad
  obtain ⟨i, hi, hget, hp, hfirst⟩ := find?_eq_first _ _ _ hd
  refine ⟨i, hi, ?_, hget ▸ hp, hfirst⟩
  rw [validate, hd, hget]

/-- C4 witness: a manifest whose only offending specifier sits in an
excluded group is still rejected, and the offender is identified: here the
offender is at index 2 of the scan (after the clean required specifier and
the clean `x` group). -/
theorem c4_first_offender_witness :
    ∃ i, ∃ hi : i < (validationScan
        ⟨["alpha>=1.0"], [("x", ["beta>=2.0"]), ("sys", ["bad\"g"])],
          ["sys"]⟩).length,
      validate ⟨["alpha>=1.0"], [("x", ["beta>=2.0"]), ("sys", ["bad\"g"])],
          ["sys"]⟩ =
        .error ⟨(validationScan
          ⟨["alpha>=1.0"], [("x", ["beta>=2.0"]), ("sys", ["bad\"g"])],
            ["sys"]⟩).get ⟨i, hi⟩⟩ ∧
        hasQuote ((validationScan
          ⟨["alpha>=1.0"], [("x", ["beta>=2.0"]), ("sys", ["bad\"g"])],
            ["sys"]⟩).get ⟨i, hi⟩) = true ∧
        ∀ j, ∀ hj : j < (validationScan
          ⟨["alpha>=1.0"], [("x", ["beta>=2.0"]), ("sys", ["bad\"g"])],
            ["sys"]⟩).length, j < i →
          hasQuote ((validationScan
            ⟨["alpha>=1.0"], [("x", ["beta>=2.0"]), ("sys", ["bad\"g"])],
              ["sys"]⟩).get ⟨j, hj⟩) = false :=
  c4_first_offender _ ⟨"bad\"g", by decide, by decide⟩

/-- C5: a manifest with a double-quoted specifier fails to load with
`ManifestError`; no listing operation becomes available, since there is
no successfully loaded registry to query. -/
theorem c5_validation_fatality (m : Manifest)
    (hbad : ∃ d ∈ validationScan m, hasQuote d = true) :
    (∃ e, loadManifest m = .error e) ∧
      (∀ r, loadManifest m ≠ .ok r) ∧
      ∀ l, (loadManifest m).map list_requirements ≠ .ok l := by
  obtain ⟨d, hd⟩ := validationError_isSome m hbad
  have hload : loadManifest m = .error ⟨d⟩ := by
    rw [loadManifest, validate, hd]; rfl
  refine ⟨⟨⟨d⟩, hload⟩, fun r h => ?_, fun l h => ?_⟩
  · rw [hload] at h; cases h
  · rw [hload] at h; cases h

/-- C5 witness: the spec's example — a required set containing
`bad"name>=1` — fails to load and yields no requirement list. -/
theorem c5_validation_fatality_witness :
    (∃ e, loadManifest ⟨["bad\"name>=1"], [], []⟩ = .error e) ∧
      (∀ r, loadManifest ⟨["bad\"name>=1"], [], []⟩ ≠ .ok r) ∧
      ∀ l, (loadManifest ⟨["bad\"name>=1"], [], []⟩).map list_requirements ≠
        .ok l :=
  c5_validation_fatality _ ⟨"bad\"name>=1", by decide, by decide⟩

/-- With distinct keys, `find?` on an association list returns exactly the
stored binding of a present key. -/
theorem find?_key_eq_of_mem (l : List (String × List Specifier))
    (hkeys : (l.map Prod.fst).Nodup) (name : String) (deps : List Specifier)
    (hmem : (name, deps) ∈ l) :
    l.find? (fun g => g.1 == name) = some (name, deps) := by
  induction l with
  | nil => cases hmem
  | cons g gs ih =>
    rw [List.map_cons] at hkeys
    obtain ⟨hhead, htail⟩ := List.nodup_cons.mp hkeys
    rcases List.mem_cons.mp hmem with rfl | hmem'
    · exact List.find?_cons_of_pos _ (by simp)
    · have hne : ¬(g.1 == name) = true := by
        intro hbeq
        have hkey : name ∈ gs.map Prod.fst :=
          List.mem_map.mpr ⟨(name, deps), hmem', rfl⟩
        have hg1 : g.1 = name := by simpa using hbeq
        exact hhead (hg1 ▸ hkey)
      have hstep : (g :: gs).find? (fun g => g.1 == name) =
          gs.find? (fun g => g.1 == name) :=
        List.find?_cons_of_neg _ hne
      rw [hstep]
      exact ih htail hmem'

/-- C6: with the optional groups keyed uniquely (as a Python dict is),
`listGroup` on a present key returns that group's declared list verbatim,
and on an absent key fails (`UnknownGroupError`, modelled as `none`); in
both cases the registry state is unchanged. -/
theorem c6_listGroup_lookup (m : Manifest)
    (hkeys : (m.optionalGroups.map Prod.fst).Nodup) (name : String) :
    (∀ deps, (name, deps) ∈ m.optionalGroups →
        listGroupCall m name = (some deps, m)) ∧
      (name ∉ m.optionalGroups.map Prod.fst →
        listGroupCall m name = (none, m)) := by
  constructor
  · intro deps hmem
    rw [listGroupCall, listGroup, find?_key_eq_of_mem m.optionalGroups hkeys name deps hmem]
    rfl
  · intro habs
    have hnone : m.optionalGroups.find? (fun g => g.1 == name) = none :=
      List.find?_eq_none.mpr (fun g hg hbeq =>
        habs (List.mem_map.mpr ⟨g, hg, by simpa using hbeq⟩))
    rw [listGroupCall, listGroup, hnone]
    rfl

/-- C6 witness: on the source manifest, `listGroup "saml2"` returns the
declared list and leaves the state unchanged, and `listGroup "nonexistent"`
fails and leaves the state unchanged. -/
theorem c6_listGroup_lookup_witness :
    listGroupCall sourceManifest "saml2" =
        (some ["pysaml2>=4.5.0"], sourceManifest) ∧
      listGroupCall sourceManifest "nonexistent" = (none, sourceManifest) :=
  ⟨(c6_listGroup_lookup sourceManifest (by decide) "saml2").1 _ (by decide),
   (c6_listGroup_lookup sourceManifest (by decide) "nonexistent").2 (by decide)⟩

/-- C7: running the module standalone on a manifest passing validation
prints exactly the specifiers of `list_requirements()`, each followed by
one newline, on standard output and exits with code 0; on validation
failure the exit code is non-zero, standard output is empty and the error
message goes to standard error. -/
theorem c7_cli (m : Manifest) :
    (validationError m = none →
      mainRun m =
        (0, String.join ((list_requirements m).map (fun r => r ++ "\n")), "")) ∧
      ∀ d, validationError m = some d →
        (mainRun m).1 ≠ 0 ∧ (mainRun m).2.1 = "" ∧
          (mainRun m).2.2 = manifestErrorMsg d := by
  constructor
  · intro h
    unfold mainRun
    rw [h]
    rfl
  · intro d h
    unfold mainRun
    rw [h]
    exact ⟨Nat.one_ne_zero, rfl, rfl⟩

/-- C7 witness: on a small valid manifest the standalone run exits 0 with
exactly the newline-terminated specifiers on standard output. -/
theorem c7_cli_witness :
    mainRun ⟨["alpha>=1.0"], [("x", ["beta>=2.0"])], []⟩ =
      (0, String.join ((list_requirements
        ⟨["alpha>=1.0"], [("x", ["beta>=2.0"])], []⟩).map (fun r => r ++ "\n")),
        "") :=
  (c7_cli _).1 (by decide)

/-- C8: `list_requirements` is a pure function of the immutable registry
state: a second successive call returns the very same list (hence the same
set of specifiers) and the state is untouched. -/
theorem c8_idempotent (m : Manifest) :
    (listInstallableCall m).1 = (listInstallableCall (listInstallableCall m).2).1 ∧
      ((listInstallableCall m).1).toFinset =
        ((listInstallableCall (listInstallableCall m).2).1).toFinset ∧
      (listInstallableCall (listInstallableCall m).2).2 = m :=
  ⟨rfl, rfl, rfl⟩

/-- The all-optional fold is invariant under permutation of the group
entries. -/
theorem allOptionalFold_perm (excluded : List String)
    (l₁ l₂ : List (String × List Specifier)) (hperm : l₁.Perm l₂) :
    allOptionalFold excluded l₁ = allOptionalFold excluded l₂ := by
  apply Finset.ext
  intro x
  rw [allOptionalFold, allOptionalFold, mem_foldl_optional, mem_foldl_optional]
  constructor
  · rintro (h | ⟨g, hg, h1, h2⟩)
    · exact Or.inl h
    · exact Or.inr ⟨g, hperm.mem_iff.mp hg, h1, h2⟩
  · rintro (h | ⟨g, hg, h1, h2⟩)
    · exact Or.inl h
    · exact Or.inr ⟨g, hperm.mem_iff.mpr hg, h1, h2⟩

/-- C9: the set `ALL_OPTIONAL_REQUIREMENTS` does not depend on the order
in which the entries of `CONDITIONAL_REQUIREMENTS` are folded: every
permutation of the entries yields the same set. -/
theorem c9_union_order_independent (l : List (String × List Specifier))
    (hperm : CONDITIONAL_REQUIREMENTS.Perm l) :
    allOptionalFold ["systemd"] l = ALL_OPTIONAL_REQUIREMENTS :=
  (allOptionalFold_perm ["systemd"] CONDITIONAL_REQUIREMENTS l hperm).symm

/-- C9 witness: folding with the first two groups swapped yields
`ALL_OPTIONAL_REQUIREMENTS`. -/
theorem c9_union_order_independent_witness :
    allOptionalFold ["systemd"] [
      ("postgres", [
        "psycopg2>=2.8 ; platform_python_implementation != \x27PyPy\x27",
        "psycopg2cffi>=2.8 ; platform_python_implementation == \x27PyPy\x27",
        "psycopg2cffi-compat==1.1 ; platform_python_implementation == \x27PyPy\x27"]),
      ("matrix-synapse-ldap3", ["matrix-synapse-ldap3>=0.1"]),
      ("saml2", ["pysaml2>=4.5.0"]),
      ("oidc", ["authlib>=0.14.0"]),
      ("systemd", ["systemd-python>=231"]),
      ("url_preview", ["lxml>=4.2.0"]),
      ("sentry", ["sentry-sdk>=0.7.2"]),
      ("opentracing", ["jaeger-client>=4.0.0", "opentracing>=2.2.0"]),
      ("jwt", ["pyjwt>=1.6.4"]),
      ("redis", ["txredisapi>=1.4.7", "hiredis"]),
      ("cache_memory", ["pympler"])] = ALL_OPTIONAL_REQUIREMENTS :=
  c9_union_order_independent _
    (by unfold CONDITIONAL_REQUIREMENTS; exact List.Perm.swap _ _ _)

/-- C10: when no specifier of the required set or of any optional group
contains a double-quote, the raise branch is unreachable: validation finds
no offender and loading the manifest succeeds. -/
theorem c10_valid_loads (m : Manifest)
    (hreq : ∀ d ∈ m.requiredSet, hasQuote d = false)
    (hopt : ∀ g ∈ m.optionalGroups, ∀ d ∈ g.2, hasQuote d = false) :
    validationError m = none ∧ loadManifest m = .ok m := by
  have hall : ∀ d ∈ validationScan m, hasQuote d = false := by
    intro d hd
    rw [validationScan, List.mem_append] at hd
    rcases hd with h | h
    · exact hreq d h
    · rw [List.mem_flatten] at h
      obtain ⟨s, hs, hds⟩ := h
      obtain ⟨g, hg, rfl⟩ := List.mem_map.mp hs
      exact hopt g hg d hds
  have hnone : validationError m = none := by
    rw [validationError]
    exact List.find?_eq_none.mpr (fun x hx => by simp [hall x hx])
  refine ⟨hnone, ?_⟩
  unfold loadManifest validate
  rw [hnone]
  rfl

/-- C10 witness: the source manifest contains no double-quote anywhere, so
the module loads successfully. -/
theorem c10_valid_loads_witness :
    validationError sourceManifest = none ∧
      loadManifest sourceManifest = .ok sourceManifest :=
  c10_valid_loads sourceManifest (by decide) (by decide)

end PythonDependencies
